import Mathlib

/-!
Shallow embedding of the EventConnect backend (Django REST API) domain core:
data model (events/models.py), query scoping (events/managers.py), the
matching engine (events/utils.py), serializer validation (events/serializers.py)
and view-level operations (events/views.py), together with theorems settling
the specification claims about them.

Machine conventions: database rows are Lean structures, tables are lists of
rows, datetimes are integers (a total order is all the code uses), Decimal
amounts and averages are rationals, and fallible operations return an
Except value whose error constructor records the kind of API error raised.
-/

namespace EC

/-- Kinds of errors the embedded operations raise, mirroring the exception
classes used in the source: DRF ValidationError (with its message),
DRF PermissionDenied (with its message), a database IntegrityError from a
violated constraint, and DoesNotExist/404 lookups.  A distinct conflict
kind stands for the HTTP 409 style error the spec calls Conflict. -/
inductive Err where
  | validation (msg : String)
  | permissionDenied (msg : String)
  | integrity
  | notFound
  | conflict (msg : String)
  deriving Repr, DecidableEq

/-- Lower-casing of a string, character by character, as Python str.lower
behaves on the ASCII labels used by the matching engine. -/
def pyLower (s : String) : String := String.mk (s.data.map Char.toLower)

/-- Helper for pySplit: walks the character list keeping the current
in-progress token reversed in cur, emitting a token at each whitespace run
boundary, exactly like Python str.split with no separator argument. -/
def pySplitAux (cur : List Char) : List Char → List (List Char)
  | [] => if cur = [] then [] else [cur.reverse]
  | c :: cs =>
    if c.isWhitespace then
      if cur = [] then pySplitAux [] cs
      else cur.reverse :: pySplitAux [] cs
    else pySplitAux (c :: cur) cs

/-- Python str.split without arguments: split on runs of whitespace and
return the non-empty tokens in order. -/
def pySplit (s : String) : List String :=
  (pySplitAux [] s.data).map (fun cs => String.mk cs)

/-- Tokens of a label as the matching engine computes them: lower-case the
string, then whitespace-tokenize (events/utils.py builds a Python set from
these; membership below plays the role of set membership). -/
def keywordsOf (s : String) : List String := pySplit (pyLower s)

/-- Event as consumed by the matching engine (events/utils.py), which reads
only event.category and treats it as a text label it can lower-case. -/
structure MatchEvent where
  id : Nat
  category : String
  deriving Repr, DecidableEq

/-- Non-empty intersection of the user keyword set with an event category
keyword set, as the if-test of the matching loop computes it. -/
def keywordsIntersect (user_keywords : List String) (event : MatchEvent) : Bool :=
  user_keywords.any (fun k => (keywordsOf event.category).contains k)

/-- Embedding of match_events_to_user (events/utils.py lines 1-8): build
the set of keywords from the user interests string, then loop over the
candidate events in order, appending each event whose category keyword set
intersects the user keyword set. -/
def match_events_to_user (interests : String) (events : List MatchEvent) : List MatchEvent :=
  let user_keywords := keywordsOf interests
  events.foldl
    (fun matching_events event =>
      if keywordsIntersect user_keywords event then
        matching_events ++ [event]
      else matching_events)
    []

/-- The predicate the spec describes: the two lower-cased whitespace-token
sets share at least one token. -/
def sharesKeyword (interests : String) (category : String) : Prop :=
  ∃ t, t ∈ keywordsOf interests ∧ t ∈ keywordsOf category

instance (i c : String) : Decidable (sharesKeyword i c) := by
  unfold sharesKeyword
  exact List.decidableBEx _ _

/-- Helper lemma: the matching fold with an arbitrary accumulator equals the
accumulator followed by the filter of the remaining events. -/
theorem match_fold_eq_filter (uk : List String) (events : List MatchEvent)
    (acc : List MatchEvent) :
    events.foldl
      (fun matching_events event =>
        if keywordsIntersect uk event then matching_events ++ [event]
        else matching_events)
      acc
    = acc ++ events.filter (fun event => keywordsIntersect uk event) := by
  induction events generalizing acc with
  | nil => simp
  | cons e es ih =>
    cases h : keywordsIntersect uk e
    · simp [List.foldl_cons, List.filter_cons, h, ih]
    · simp [List.foldl_cons, List.filter_cons, h, ih]

/-- Bool-level membership test used by the embedding agrees with the
Prop-level shared-keyword predicate of the spec. -/
theorem keywordsIntersect_iff_sharesKeyword (i : String) (e : MatchEvent) :
    keywordsIntersect (keywordsOf i) e = true ↔ sharesKeyword i e.category := by
  constructor
  · intro h
    rcases List.any_eq_true.mp h with ⟨t, ht, hc⟩
    exact ⟨t, ht, by simpa using hc⟩
  · rintro ⟨t, ht, hc⟩
    exact List.any_eq_true.mpr ⟨t, ht, by simpa using hc⟩

/-- C6: for every user interests string and list of candidate events, the
matching function returns exactly those events, in input order, whose
lower-cased whitespace-tokenized category label shares at least one token
with the lower-cased whitespace-tokenized interests string; in particular
interests "music art" match category "Art Exhibition" (shared token art)
and do not match "Finance Seminar". -/
theorem C6_match_events_filter :
    (∀ (interests : String) (events : List MatchEvent),
      match_events_to_user interests events
        = events.filter (fun e => decide (sharesKeyword interests e.category)))
    ∧ match_events_to_user "music art"
        [⟨1, "Art Exhibition"⟩, ⟨2, "Finance Seminar"⟩]
      = [⟨1, "Art Exhibition"⟩] := by
  constructor
  · intro interests events
    unfold match_events_to_user
    rw [match_fold_eq_filter, List.nil_append]
    apply List.filter_congr
    intro e _
    cases hb : keywordsIntersect (keywordsOf interests) e
    · rw [eq_comm, decide_eq_false_iff_not]
      intro hs
      rw [(keywordsIntersect_iff_sharesKeyword interests e).mpr hs] at hb
      cases hb
    · rw [eq_comm, decide_eq_true_eq]
      exact (keywordsIntersect_iff_sharesKeyword interests e).mp hb
  · decide

/-! Pagination (events/views.py lines 20-23 and 101-104). -/

/-- The page_size class attribute of EventPagination (views.py line 21). -/
def EventPagination_page_size : Nat := 10

/-- The max_page_size class attribute of EventPagination (views.py line 23). -/
def EventPagination_max_page_size : Nat := 100

/-- Effective page size of a request under the configured DRF
PageNumberPagination subclass: the page_size query parameter, when present
and a positive integer, is capped at max_page_size; otherwise the class
default applies.  This is the page size the spec refers to as "default 10,
client-overridable, capped at 100". -/
def effective_page_size (param : Option Nat) : Nat :=
  match param with
  | none => EventPagination_page_size
  | some n => if n = 0 then EventPagination_page_size
              else min n EventPagination_max_page_size

/-- math.ceil of the division of two naturals, as a natural number. -/
def math_ceil_div (a b : Nat) : Nat := a / b + (if a % b = 0 then 0 else 1)

/-- Embedding of the total_pages computation in EventViewSet.list (views.py
line 103): math.ceil(count / self.pagination_class.page_size).  The divisor
is the pagination CLASS attribute page_size (10); the page_size query
parameter of the request, although it does change how many items DRF puts
on a page, is not consulted by this line. -/
def EventViewSet_list_total_pages (count : Nat) (pageSizeParam : Option Nat) : Nat :=
  math_ceil_div count EventPagination_page_size

/-- Total pages as the claim words it: the ceiling of count divided by the
effective page size of the request. -/
def claimed_total_pages (count : Nat) (pageSizeParam : Option Nat) : Nat :=
  (⌈(count : ℚ) / (effective_page_size pageSizeParam : ℚ)⌉).toNat

/-- Helper: the quotient-remainder form of math.ceil on a division of
naturals agrees with the rational ceiling. -/
theorem ceil_helper (q r b : Nat) (hb : 0 < b) (hr : r < b) :
    ((q + (if r = 0 then 0 else 1) : Nat) : Int) = ⌈(((b * q + r : Nat) : ℚ)) / (b : ℚ)⌉ := by
  have hbq : (0 : ℚ) < (b : ℚ) := by exact_mod_cast hb
  rw [eq_comm, Int.ceil_eq_iff]
  by_cases h : r = 0
  · subst h
    simp only [if_pos rfl, Nat.add_zero]
    constructor
    · rw [lt_div_iff₀ hbq]
      push_cast
      nlinarith
    · rw [div_le_iff₀ hbq]
      push_cast
      nlinarith
  · simp only [h, if_neg, Nat.add_zero]
    have hrq : (0 : ℚ) < (r : ℚ) := by exact_mod_cast Nat.pos_of_ne_zero h
    have hrb : ((r : ℚ)) < (b : ℚ) := by exact_mod_cast hr
    constructor
    · rw [lt_div_iff₀ hbq]
      push_cast
      nlinarith
    · rw [div_le_iff₀ hbq]
      push_cast
      nlinarith

/-- The embedded math.ceil division agrees with the rational ceiling. -/
theorem math_ceil_div_eq_ceil (a b : Nat) (hb : 0 < b) :
    (math_ceil_div a b : Int) = ⌈(a : ℚ) / (b : ℚ)⌉ := by
  have h := ceil_helper (a / b) (a % b) b hb (Nat.mod_lt a hb)
  rw [Nat.mul_comm, Nat.div_add_mod'] at h
  unfold math_ceil_div
  exact h

/-- C3 counterexample: with 25 items and a client-supplied page size of 25
(allowed: below the cap of 100), the claim demands total_pages =
ceil(25 / 25) = 1, but the code reports ceil(25 / 10) = 3, because it
always divides by the class default page size. -/
theorem C3_counterexample :
    EventViewSet_list_total_pages 25 (some 25) = 3
      ∧ claimed_total_pages 25 (some 25) = 1
      ∧ (3 : Nat) ≠ 1 := by
  refine ⟨rfl, ?_, by decide⟩
  have h : effective_page_size (some 25) = 25 := rfl
  unfold claimed_total_pages
  rw [h]
  norm_num

/-- C3 amended: the reported total_pages equals ceil(count / 10) computed
from the fixed class default page size 10, for every value of the client
page-size parameter (the override changes page contents but not this
field); equivalently it is the least n with count ≤ 10 n, and for count=25
it equals 3 (a ceiling, not a floor). -/
theorem C3_total_pages_amended :
    (∀ (count : Nat) (param : Option Nat),
      ((EventViewSet_list_total_pages count param : Int)
          = ⌈(count : ℚ) / ((10 : Nat) : ℚ)⌉)
      ∧ count ≤ 10 * EventViewSet_list_total_pages count param
      ∧ (∀ m, count ≤ 10 * m → EventViewSet_list_total_pages count param ≤ m))
    ∧ EventViewSet_list_total_pages 25 none = 3 := by
  constructor
  · intro count param
    refine ⟨math_ceil_div_eq_ceil count 10 (by decide), ?_, ?_⟩
    · unfold EventViewSet_list_total_pages math_ceil_div EventPagination_page_size
      by_cases h : count % 10 = 0 <;> simp [h] <;> omega
    · intro m hm
      unfold EventViewSet_list_total_pages math_ceil_div EventPagination_page_size
      by_cases h : count % 10 = 0 <;> simp [h] <;> omega
  · rfl

/-- C3 witness: the amended theorem at count 30 with a page-size override of
7, instantiating the least-n bound at m = 3. -/
theorem C3_witness :
    EventViewSet_list_total_pages 30 (some 7) ≤ 3
      ∧ 30 ≤ 10 * EventViewSet_list_total_pages 30 (some 7) := by
  have h := C3_total_pages_amended.1 30 (some 7)
  exact ⟨h.2.2 3 (by decide), h.2.1⟩

/-! Data model (events/models.py).  Rows are structures, ids are Nat primary
keys, foreign keys hold the id of the referenced row, datetimes are Int,
Decimal fields are ℚ, JSON blobs are kept as opaque strings, and nullable
columns are Option. -/

/-- User row (models.py lines 11-61, plus the AbstractUser name/staff
fields the views and permissions consult). -/
structure User where
  id : Nat
  email : String
  password : String
  first_name : String
  last_name : String
  profile_data : String
  preferences : String
  location : Option Nat
  availability : String
  phone_number : Option String
  date_of_birth : Option Int
  email_verified : Bool
  role : String
  status : String
  is_staff : Bool
  deriving Repr, DecidableEq

/-- Location row (models.py lines 64-74); name carries a unique constraint. -/
structure Location where
  id : Nat
  name : String
  latitude : Option ℚ
  longitude : Option ℚ
  address : Option String
  country : String
  city : String
  postal_code : String
  deriving Repr, DecidableEq

/-- Event row (models.py lines 93-130). -/
structure Event where
  id : Nat
  title : String
  description : String
  start_datetime : Int
  end_datetime : Int
  location : Nat
  category : Option Nat
  creator : Nat
  capacity : Nat
  price : ℚ
  minimum_age : Option Nat
  is_deleted : Bool
  status : String
  created_at : Int
  updated_at : Int
  tags : List Nat
  deriving Repr, DecidableEq

/-- Ticket row (models.py lines 210-222); (event, name) carries a unique
constraint. -/
structure Ticket where
  id : Nat
  event : Nat
  name : String
  description : String
  price : ℚ
  quantity : Nat
  remaining : Nat
  sale_start : Int
  sale_end : Int
  is_active : Bool
  deriving Repr, DecidableEq

/-- RSVP row (models.py lines 145-160).  Note: the model declares no Meta
and hence no unique_together constraint on (user, event). -/
structure RSVP where
  id : Nat
  user : Nat
  event : Nat
  status : String
  timestamp : Int
  ticket : Nat
  quantity : Nat
  notes : String
  check_in_time : Option Int
  check_in_status : Bool
  deriving Repr, DecidableEq

/-- Transaction row (models.py lines 225-237). -/
structure Transaction where
  id : Nat
  user : Nat
  ticket : Nat
  amount : ℚ
  payment_method : String
  transaction_id : String
  status : String
  created_at : Int
  deriving Repr, DecidableEq

/-- Waitlist row (models.py lines 240-248); (event, user) carries a
unique_together constraint. -/
structure Waitlist where
  id : Nat
  event : Nat
  user : Nat
  joined_at : Int
  notified : Bool
  notified_at : Option Int
  deriving Repr, DecidableEq

/-- Review row (models.py lines 177-182). -/
structure Review where
  id : Nat
  user : Nat
  event : Nat
  rating : Int
  comment : String
  timestamp : Int
  deriving Repr, DecidableEq

/-- Notification row (models.py lines 185-196). -/
structure Notification where
  id : Nat
  user : Nat
  type : String
  content : String
  is_read : Bool
  timestamp : Int
  deriving Repr, DecidableEq

/-- The relational store: one list of rows per table. -/
structure DB where
  users : List User
  locations : List Location
  events : List Event
  tickets : List Ticket
  rsvps : List RSVP
  transactions : List Transaction
  waitlists : List Waitlist
  reviews : List Review
  notifications : List Notification
  deriving Repr, DecidableEq

/-! Event update and delete (events/views.py lines 119-130) and the active
scope (events/managers.py lines 24-25). -/

/-- Embedding of EventViewSet.perform_update (views.py lines 119-123): the
only gate is request.user.role == organizer; on success serializer.save()
writes the validated changes (abstracted as the function save). -/
def perform_update (user : User) (event : Event) (save : Event → Event) :
    Except Err Event :=
  if user.role ≠ "organizer" then
    .error (.permissionDenied "Only organizers can update events.")
  else .ok (save event)

/-- Embedding of EventViewSet.perform_destroy (views.py lines 125-130): the
only gate is request.user.role == organizer; on success it sets
instance.is_deleted = True and calls instance.save(), which also refreshes
the auto_now field updated_at (models.py line 115) to the current time. -/
def perform_destroy (user : User) (now : Int) (inst : Event) :
    Except Err Event :=
  if user.role ≠ "organizer" then
    .error (.permissionDenied "Only organizers can delete events.")
  else .ok { inst with is_deleted := true, updated_at := now }

/-- Embedding of Event.objects.active() (managers.py lines 24-25):
filter(is_deleted=False). -/
def EventQuerySet_active (events : List Event) : List Event :=
  events.filter (fun e => !e.is_deleted)

/-- Store-level view of perform_destroy: look up the row, run the
instance-level operation, and write the updated row back in place
(instance.save() is an UPDATE, never a DELETE); no other table is touched. -/
def perform_destroy_db (user : User) (now : Int) (eid : Nat) (db : DB) :
    Except Err DB :=
  match db.events.find? (fun e => e.id = eid) with
  | none => .error .notFound
  | some inst =>
    match perform_destroy user now inst with
    | .error err => .error err
    | .ok inst2 =>
      .ok { db with events := db.events.map (fun e => if e.id = eid then inst2 else e) }

/-- Concrete organizer with id 2, used in counterexamples below. -/
def organizerB : User :=
  { id := 2, email := "b@example.com", password := "h", first_name := "B",
    last_name := "Org", profile_data := "", preferences := "", location := none,
    availability := "", phone_number := none, date_of_birth := none,
    email_verified := true, role := "organizer", status := "active",
    is_staff := false }

/-- Concrete event whose creator is user 1 (not organizerB), used in
counterexamples below. -/
def eventOfA : Event :=
  { id := 10, title := "Expo", description := "d", start_datetime := 100,
    end_datetime := 200, location := 3, category := some 4, creator := 1,
    capacity := 50, price := 20, minimum_age := none, is_deleted := false,
    status := "published", created_at := 5, updated_at := 5, tags := [] }

/-- C2 counterexample: organizerB (id 2) is not the creator of eventOfA
(creator id 1), yet both perform_update and perform_destroy succeed; the
claim requires any actor other than the creator to receive Forbidden. -/
theorem C2_counterexample :
    perform_update organizerB eventOfA (fun e => { e with title := "New" })
        = .ok { eventOfA with title := "New" }
      ∧ perform_destroy organizerB 7 eventOfA
        = .ok { eventOfA with is_deleted := true, updated_at := 7 }
      ∧ organizerB.id ≠ eventOfA.creator := by
  refine ⟨rfl, rfl, by decide⟩

/-- C2 amended: an event update or delete succeeds exactly when the acting
user has role organizer — the creator of the event is never consulted — and
any non-organizer receives PermissionDenied (Forbidden) with the event
unchanged. -/
theorem C2_update_destroy_gate (u : User) (e : Event) (save : Event → Event)
    (now : Int) :
    (u.role = "organizer" →
      perform_update u e save = .ok (save e)
        ∧ perform_destroy u now e = .ok { e with is_deleted := true, updated_at := now })
    ∧ (u.role ≠ "organizer" →
      perform_update u e save
          = .error (.permissionDenied "Only organizers can update events.")
        ∧ perform_destroy u now e
          = .error (.permissionDenied "Only organizers can delete events.")) := by
  constructor
  · intro h
    constructor
    · unfold perform_update
      rw [if_neg (by simp [h])]
    · unfold perform_destroy
      rw [if_neg (by simp [h])]
  · intro h
    constructor
    · unfold perform_update
      rw [if_pos h]
    · unfold perform_destroy
      rw [if_pos h]

/-- C2 witness: the amended gate at a concrete organizer and a concrete
non-organizer input. -/
theorem C2_witness :
    perform_update organizerB eventOfA id = .ok eventOfA := by
  have h := (C2_update_destroy_gate organizerB eventOfA id 0).1 rfl
  exact h.1

/-- C8 counterexample: a successful delete by an organizer does not leave
every other field unchanged — instance.save() refreshes the auto_now column
updated_at, so destroying eventOfA (updated_at 5) at time 7 yields a row
whose updated_at is 7. -/
theorem C8_counterexample :
    perform_destroy organizerB 7 eventOfA
        = .ok { eventOfA with is_deleted := true, updated_at := 7 }
      ∧ eventOfA.updated_at = 5
      ∧ ({ eventOfA with is_deleted := true, updated_at := 7 } : Event).updated_at
          ≠ eventOfA.updated_at := by
  refine ⟨rfl, rfl, by decide⟩

/-- C8 amended: a successful delete sets is_deleted = true and refreshes the
auto-maintained updated_at timestamp, and changes nothing else: every other
field of the event row is preserved, the row count of the events table and
every other table (in particular RSVPs and Transactions) are unchanged, and
the active scope excludes the deleted id afterwards. -/
theorem C8_destroy_frame (u : User) (now : Int) (eid : Nat) (db db2 : DB)
    (hids : (db.events.map Event.id).Nodup)
    (hok : perform_destroy_db u now eid db = .ok db2) :
    db2.events.length = db.events.length
    ∧ db2.users = db.users ∧ db2.locations = db.locations
    ∧ db2.tickets = db.tickets ∧ db2.rsvps = db.rsvps
    ∧ db2.transactions = db.transactions ∧ db2.waitlists = db.waitlists
    ∧ db2.reviews = db.reviews ∧ db2.notifications = db.notifications
    ∧ (∀ e, e ∈ db.events → e.id = eid →
        { e with is_deleted := true, updated_at := now } ∈ db2.events)
    ∧ (∀ e, e ∈ db.events → e.id ≠ eid → e ∈ db2.events)
    ∧ (∀ e2, e2 ∈ EventQuerySet_active db2.events → e2.id ≠ eid) := by
  unfold perform_destroy_db at hok
  cases hfind : db.events.find? (fun e => e.id = eid) with
  | none => rw [hfind] at hok; cases hok
  | some inst =>
    rw [hfind] at hok
    dsimp only at hok
    unfold perform_destroy at hok
    by_cases hrole : u.role ≠ "organizer"
    · simp only [if_pos hrole] at hok
      cases hok
    · simp only [if_neg hrole] at hok
      have hdb2 : db2 = { db with
          events := db.events.map
            (fun e => if e.id = eid then { inst with is_deleted := true, updated_at := now } else e) } := by
        cases hok; rfl
      have hinstmem : inst ∈ db.events := List.mem_of_find?_eq_some hfind
      have hinstid : inst.id = eid := by
        have := List.find?_some hfind
        simpa using this
      subst hdb2
      refine ⟨by simp, rfl, rfl, rfl, rfl, rfl, rfl, rfl, rfl, ?_, ?_, ?_⟩
      · intro e he heid
        have hei : e = inst :=
          List.inj_on_of_nodup_map hids he hinstmem (by rw [heid, hinstid])
        subst hei
        exact List.mem_map.mpr ⟨e, he, by rw [if_pos heid]⟩
      · intro e he heid
        exact List.mem_map.mpr ⟨e, he, by rw [if_neg heid]⟩
      · intro e2 he2
        unfold EventQuerySet_active at he2
        have hmem := List.mem_filter.mp he2
        rcases List.mem_map.mp hmem.1 with ⟨e, _, hfe⟩
        by_cases h : e.id = eid
        · rw [if_pos h] at hfe
          rw [← hfe] at hmem
          simp at hmem
        · rw [if_neg h] at hfe
          rw [← hfe]
          exact h

/-- Concrete one-event store used by the C8 witness. -/
def dbW : DB :=
  { users := [organizerB], locations := [], events := [eventOfA], tickets := [],
    rsvps := [], transactions := [], waitlists := [], reviews := [],
    notifications := [] }

/-- The store after organizerB deletes event 10 of dbW at time 7. -/
def dbW2 : DB :=
  { dbW with events := [{ eventOfA with is_deleted := true, updated_at := 7 }] }

/-- C8 witness: the amended frame theorem applied to the concrete one-event
store, with both hypotheses discharged there. -/
theorem C8_witness :
    dbW2.events.length = dbW.events.length
      ∧ (∀ e2, e2 ∈ EventQuerySet_active dbW2.events → e2.id ≠ 10) := by
  have h := C8_destroy_frame organizerB 7 10 dbW dbW2 (by decide) rfl
  exact ⟨h.1, h.2.2.2.2.2.2.2.2.2.2.2⟩

/-! Notifications (events/views.py lines 277-290). -/

/-- Embedding of NotificationViewSet.mark_all_read (views.py lines 287-290):
get_queryset() restricts to the rows of the requesting user, and
update(is_read=True) sets that one column on exactly those rows. -/
def mark_all_read (requester : Nat) (ns : List Notification) : List Notification :=
  ns.map (fun n => if n.user = requester then { n with is_read := true } else n)

/-- C10: mark-all-read sets is_read = true on every notification of the
requesting user and leaves every notification of every other user, and
every other field of the requesting user rows, unchanged (same number of
rows, same ids, users, types, contents and timestamps, position by
position). -/
theorem C10_mark_all_read_frame (u : Nat) (ns : List Notification) :
    (mark_all_read u ns).length = ns.length
    ∧ (∀ i (h : i < ns.length) (h2 : i < (mark_all_read u ns).length),
        ((ns.get ⟨i, h⟩).user = u →
          (mark_all_read u ns).get ⟨i, h2⟩
            = { ns.get ⟨i, h⟩ with is_read := true })
        ∧ ((ns.get ⟨i, h⟩).user ≠ u →
          (mark_all_read u ns).get ⟨i, h2⟩ = ns.get ⟨i, h⟩)
        ∧ ((mark_all_read u ns).get ⟨i, h2⟩).id = (ns.get ⟨i, h⟩).id
        ∧ ((mark_all_read u ns).get ⟨i, h2⟩).user = (ns.get ⟨i, h⟩).user
        ∧ ((mark_all_read u ns).get ⟨i, h2⟩).type = (ns.get ⟨i, h⟩).type
        ∧ ((mark_all_read u ns).get ⟨i, h2⟩).content = (ns.get ⟨i, h⟩).content
        ∧ ((mark_all_read u ns).get ⟨i, h2⟩).timestamp
            = (ns.get ⟨i, h⟩).timestamp) := by
  constructor
  · simp [mark_all_read]
  · intro i h h2
    have hget : (mark_all_read u ns).get ⟨i, h2⟩
        = if (ns.get ⟨i, h⟩).user = u then { ns.get ⟨i, h⟩ with is_read := true }
          else ns.get ⟨i, h⟩ := by
      unfold mark_all_read
      rw [List.get_map]
    by_cases hu : (ns.get ⟨i, h⟩).user = u
    · rw [hget, if_pos hu]
      refine ⟨fun _ => rfl, fun hne => absurd hu hne, rfl, rfl, rfl, rfl, rfl⟩
    · rw [hget, if_neg hu]
      refine ⟨fun heq => absurd heq hu, fun _ => rfl, rfl, rfl, rfl, rfl, rfl⟩

/-- Concrete notification list for the C10 witness: one row of user 1
(unread) and one row of user 2. -/
def nsW : List Notification :=
  [ { id := 1, user := 1, type := "reminder", content := "a", is_read := false,
      timestamp := 0 },
    { id := 2, user := 2, type := "update", content := "b", is_read := false,
      timestamp := 0 } ]

/-- C10 witness: applying the frame theorem to the concrete list, the
requester row 0 is marked read and the other-user row 1 is untouched. -/
theorem C10_witness :
    (mark_all_read 1 nsW).get ⟨0, by decide⟩
        = { nsW.get ⟨0, by decide⟩ with is_read := true }
      ∧ (mark_all_read 1 nsW).get ⟨1, by decide⟩ = nsW.get ⟨1, by decide⟩ := by
  have h0 := (C10_mark_all_read_frame 1 nsW).2 0 (by decide) (by decide)
  have h1 := (C10_mark_all_read_frame 1 nsW).2 1 (by decide) (by decide)
  exact ⟨h0.1 rfl, h1.2.1 (by decide)⟩

/-! Ticket reservation: RSVP creation (events/views.py lines 179-189) and
Transaction validation (events/serializers.py lines 277-283). -/

/-- Embedding of RSVPViewSet.perform_create (views.py lines 179-189): the
validated event is looked up, an RSVP for a passed event is rejected, a
second RSVP by the same user for the same event is rejected by an existence
check, and otherwise serializer.save(user=user, event=event) appends the
RSVP row.  No ticket field is read or written and no Transaction is
created. -/
def RSVP_perform_create (now : Int) (userId : Nat) (data : RSVP) (db : DB) :
    Except Err DB :=
  match db.events.find? (fun e => e.id = data.event) with
  | none => .error .notFound
  | some event =>
    if event.start_datetime < now then
      .error (.validation "You cannot RSVP for an event that has already passed.")
    else if db.rsvps.any (fun r => r.user = userId ∧ r.event = data.event) then
      .error (.validation "You have already RSVPd for this event.")
    else .ok { db with rsvps := db.rsvps ++ [{ data with user := userId }] }

/-- Embedding of TransactionSerializer.validate (serializers.py lines
277-283): rejects a sold-out ticket (remaining < 1 — the requested quantity
plays no role) and an inactive ticket; the sale window is not consulted. -/
def TransactionSerializer_validate (ticket : Ticket) : Except Err Unit :=
  if ticket.remaining < 1 then
    .error (.validation "This ticket is sold out.")
  else if ticket.is_active = false then
    .error (.validation "This ticket is not available for purchase.")
  else .ok ()

/-- Concrete event (id 10, creator 1, starts at 100) for the reservation
counterexample. -/
def event10 : Event :=
  { id := 10, title := "Expo", description := "d", start_datetime := 100,
    end_datetime := 200, location := 3, category := some 4, creator := 1,
    capacity := 50, price := 20, minimum_age := none, is_deleted := false,
    status := "published", created_at := 5, updated_at := 5, tags := [] }

/-- Concrete ticket of event 10 with remaining = 1. -/
def ticket20 : Ticket :=
  { id := 20, event := 10, name := "GA", description := "d", price := 20,
    quantity := 5, remaining := 1, sale_start := 0, sale_end := 50,
    is_active := true }

/-- Concrete RSVP payload: user 7 asks for quantity 2 of ticket 20 at
event 10. -/
def rsvpData : RSVP :=
  { id := 30, user := 7, event := 10, status := "attending", timestamp := 5,
    ticket := 20, quantity := 2, notes := "", check_in_time := none,
    check_in_status := false }

/-- Store holding event 10 and ticket 20, no RSVPs and no transactions. -/
def dbRes : DB :=
  { users := [organizerB], locations := [], events := [event10],
    tickets := [ticket20], rsvps := [], transactions := [], waitlists := [],
    reviews := [], notifications := [] }

/-- The store after user 7 successfully RSVPs with quantity 2. -/
def dbResAfter : DB := { dbRes with rsvps := [rsvpData] }

/-- C1 counterexample: at time 5 (inside the sale window), user 7 reserves
quantity 2 against ticket 20 which has remaining = 1.  The claim demands a
SoldOut failure (remaining < quantity); instead the operation succeeds, and
afterwards the ticket still has remaining = 1 (no decrement) and no
Transaction exists (no atomically created pair). -/
theorem C1_counterexample :
    RSVP_perform_create 5 7 rsvpData dbRes = .ok dbResAfter
      ∧ rsvpData.quantity = 2
      ∧ ticket20.remaining = 1
      ∧ dbResAfter.tickets = dbRes.tickets
      ∧ dbResAfter.transactions = [] := by
  refine ⟨rfl, rfl, rfl, rfl, rfl⟩

/-- C1 amended: RSVP creation checks only that the event has not started
and that the user has no prior RSVP for it; on success it appends the RSVP
row alone, leaving events, tickets (in particular every remaining count)
and transactions unchanged — no decrement and no paired Transaction.
Separately, Transaction validation succeeds exactly when remaining ≥ 1 and
the ticket is active: the requested quantity and the sale window are never
consulted, and nothing decrements remaining there either. -/
theorem C1_reservation_behavior (now : Int) (userId : Nat) (data : RSVP)
    (db db2 : DB) (t : Ticket) :
    (RSVP_perform_create now userId data db = .ok db2 →
      db2.events = db.events
        ∧ db2.tickets = db.tickets
        ∧ db2.transactions = db.transactions
        ∧ db2.rsvps = db.rsvps ++ [{ data with user := userId }])
    ∧ (TransactionSerializer_validate t = .ok ()
        ↔ 1 ≤ t.remaining ∧ t.is_active = true) := by
  constructor
  · intro hok
    unfold RSVP_perform_create at hok
    cases hfind : db.events.find? (fun e => e.id = data.event) with
    | none => rw [hfind] at hok; cases hok
    | some event =>
      rw [hfind] at hok
      dsimp only at hok
      by_cases h1 : event.start_datetime < now
      · rw [if_pos h1] at hok; cases hok
      · rw [if_neg h1] at hok
        by_cases h2 : db.rsvps.any (fun r => r.user = userId ∧ r.event = data.event)
        · rw [if_pos h2] at hok; cases hok
        · rw [if_neg h2] at hok
          cases hok
          exact ⟨rfl, rfl, rfl, rfl⟩
  · unfold TransactionSerializer_validate
    constructor
    · intro hok
      by_cases hr : t.remaining < 1
      · rw [if_pos hr] at hok; cases hok
      · rw [if_neg hr] at hok
        by_cases ha : t.is_active = false
        · rw [if_pos ha] at hok; cases hok
        · exact ⟨by omega, by simpa using ha⟩
    · intro h
      rw [if_neg (by omega), if_neg (by simp [h.2])]

/-- C1 witness: the amended theorem at the concrete reservation input; the
success hypothesis holds there by computation, and the validation
equivalence is instantiated at ticket 20 (remaining 1, active). -/
theorem C1_witness :
    dbResAfter.tickets = dbRes.tickets
      ∧ dbResAfter.transactions = dbRes.transactions
      ∧ TransactionSerializer_validate ticket20 = .ok () := by
  have h := C1_reservation_behavior 5 7 rsvpData dbRes dbResAfter ticket20
  exact ⟨(h.1 rfl).2.1, (h.1 rfl).2.2.1, h.2.mpr (by decide)⟩

/-! Admin deletion guard: UserSerializer (events/serializers.py lines
106-186), UsersViewSet.update (events/views.py lines 59-73) and User.clean
(events/models.py lines 56-61). -/

/-- Partial-update payload of UserSerializer: a field is some value when the
request body contains the corresponding key. -/
structure UserUpdateData where
  first_name : Option String
  last_name : Option String
  email : Option String
  profile_data : Option String
  preferences : Option String
  role : Option String
  status : Option String
  password : Option String
  deriving Repr, DecidableEq

/-- Embedding of UserSerializer.validate (serializers.py lines 158-165):
the transition to status deleted is rejected only when the PAYLOAD also
carries role = admin; the role stored on the instance is not consulted. -/
def UserSerializer_validate (data : UserUpdateData) : Except Err UserUpdateData :=
  if data.status = some "deleted" ∧ data.role = some "admin" then
    .error (.validation "Admin accounts cannot be marked as deleted.")
  else .ok data

/-- Embedding of UserSerializer.update (serializers.py lines 177-186):
setattr for each validated field, set_password when a password is supplied,
then instance.save() — which does not invoke model clean(). -/
def UserSerializer_update (inst : User) (d : UserUpdateData) : User :=
  { inst with
    first_name := d.first_name.getD inst.first_name,
    last_name := d.last_name.getD inst.last_name,
    email := d.email.getD inst.email,
    profile_data := d.profile_data.getD inst.profile_data,
    preferences := d.preferences.getD inst.preferences,
    role := d.role.getD inst.role,
    status := d.status.getD inst.status,
    password := d.password.getD inst.password }

/-- Embedding of UsersViewSet.update (views.py lines 59-73): serializer
validation, then a Forbidden response when the payload changes role and the
actor is neither admin nor organizer, then perform_update saves. -/
def UsersViewSet_update (actor : User) (inst : User) (d : UserUpdateData) :
    Except Err User :=
  match UserSerializer_validate d with
  | .error e => .error e
  | .ok d2 =>
    if d2.role.isSome ∧ actor.role ≠ "admin" ∧ actor.role ≠ "organizer" then
      .error (.permissionDenied "You do not have permission to change roles.")
    else .ok (UserSerializer_update inst d2)

/-- Embedding of User.clean (models.py lines 56-61), the model-level
validation the code itself states for this invariant; Django does not run
it from serializer.save(). -/
def User_clean (u : User) : Except Err Unit :=
  if u.status = "deleted" ∧ u.role = "admin" then
    .error (.validation "Admin accounts cannot be marked as deleted")
  else .ok ()

/-- Concrete admin user (id 1, status active). -/
def adminA : User :=
  { id := 1, email := "a@example.com", password := "h", first_name := "A",
    last_name := "Admin", profile_data := "", preferences := "", location := none,
    availability := "", phone_number := none, date_of_birth := none,
    email_verified := true, role := "admin", status := "active",
    is_staff := true }

/-- Partial-update payload that sets only status = deleted (no role key). -/
def deleteOnlyPayload : UserUpdateData :=
  { first_name := none, last_name := none, email := none, profile_data := none,
    preferences := none, role := none, status := some "deleted",
    password := none }

/-- C4: the failing input.  A partial update of admin user adminA with body
containing only status = deleted passes the serializer validation (the
payload has no role key, so the admin guard does not fire) and the saved
user has role admin and status deleted — a state the model clean() of the
same codebase rejects, and which the claim (and spec invariant) forbids.
The guard does fire when the payload itself carries role = admin, showing
the check reads the payload instead of the stored role. -/
theorem C4_admin_deleted_bug :
    UsersViewSet_update adminA adminA deleteOnlyPayload
        = .ok { adminA with status := "deleted" }
      ∧ ({ adminA with status := "deleted" } : User).role = "admin"
      ∧ User_clean { adminA with status := "deleted" }
        = .error (.validation "Admin accounts cannot be marked as deleted")
      ∧ UserSerializer_validate { deleteOnlyPayload with role := some "admin" }
        = .error (.validation "Admin accounts cannot be marked as deleted.") := by
  refine ⟨rfl, rfl, rfl, rfl⟩

/-! RSVP uniqueness (events/models.py lines 145-160 and 240-248,
events/views.py lines 179-189). -/

/-- Store-level insert into the RSVP table.  The RSVP model declares no
Meta and hence no unique_together constraint (models.py lines 145-160), so
the store accepts every row unconditionally. -/
def RSVP_db_insert (r : RSVP) (rows : List RSVP) : Except Err (List RSVP) :=
  .ok (rows ++ [r])

/-- Store-level insert into the Waitlist table, whose model does declare
unique_together = [event, user] (models.py lines 247-248): a duplicate pair
violates the constraint and raises IntegrityError. -/
def Waitlist_db_insert (w : Waitlist) (rows : List Waitlist) :
    Except Err (List Waitlist) :=
  if rows.any (fun x => x.event = w.event ∧ x.user = w.user) then
    .error .integrity
  else .ok (rows ++ [w])

/-- Number of RSVP rows of one (user, event) pair. -/
def rsvpPairCount (rows : List RSVP) (u e : Nat) : Nat :=
  (rows.filter (fun r => r.user = u ∧ r.event = e)).length

/-- The store already holding the RSVP of user 7 for event 10. -/
def dbDup : DB := { dbRes with rsvps := [rsvpData] }

/-- C5 counterexample: the RSVP table has no backing uniqueness constraint —
a direct store insert of a second row for the pair (user 7, event 10)
succeeds, after which two RSVP rows exist for the pair (the state a
concurrent duplicate request reaches); and the API-level rejection of a
duplicate is a ValidationError from a prior existence check, not a
constraint violation. -/
theorem C5_counterexample :
    RSVP_db_insert rsvpData [rsvpData] = .ok [rsvpData, rsvpData]
      ∧ rsvpPairCount [rsvpData, rsvpData] 7 10 = 2
      ∧ RSVP_perform_create 5 7 rsvpData dbDup
        = .error (.validation "You have already RSVPd for this event.") := by
  refine ⟨rfl, rfl, rfl⟩

/-- C5 amended: duplicate RSVPs are prevented only by the check-then-act
existence test in perform_create, which raises a ValidationError: under
sequential API inserts a successful creation starts from zero rows for the
pair and ends with exactly one, but the RSVP table itself — unlike the
Waitlist table — carries no uniqueness constraint, so the store accepts
duplicate pairs inserted directly. -/
theorem C5_rsvp_uniqueness (now : Int) (userId : Nat) (data : RSVP)
    (db db2 : DB) :
    (∀ event, db.events.find? (fun e => e.id = data.event) = some event →
      ¬ event.start_datetime < now →
      db.rsvps.any (fun r => r.user = userId ∧ r.event = data.event) = true →
      RSVP_perform_create now userId data db
        = .error (.validation "You have already RSVPd for this event."))
    ∧ (RSVP_perform_create now userId data db = .ok db2 →
        rsvpPairCount db.rsvps userId data.event = 0
          ∧ rsvpPairCount db2.rsvps userId data.event = 1)
    ∧ (∀ (r : RSVP) (rows : List RSVP), RSVP_db_insert r rows = .ok (rows ++ [r]))
    ∧ (∀ (w : Waitlist) (rows : List Waitlist),
        rows.any (fun x => x.event = w.event ∧ x.user = w.user) = true →
        Waitlist_db_insert w rows = .error .integrity) := by
  refine ⟨?_, ?_, fun r rows => rfl, fun w rows hw => by rw [Waitlist_db_insert, if_pos hw]⟩
  · intro event hfind hpassed hdup
    unfold RSVP_perform_create
    rw [hfind]
    dsimp only
    rw [if_neg hpassed, if_pos hdup]
  · intro hok
    unfold RSVP_perform_create at hok
    cases hfind : db.events.find? (fun e => e.id = data.event) with
    | none => rw [hfind] at hok; cases hok
    | some event =>
      rw [hfind] at hok
      dsimp only at hok
      by_cases h1 : event.start_datetime < now
      · rw [if_pos h1] at hok; cases hok
      · rw [if_neg h1] at hok
        by_cases h2 : db.rsvps.any (fun r => r.user = userId ∧ r.event = data.event)
        · rw [if_pos h2] at hok; cases hok
        · rw [if_neg h2] at hok
          cases hok
          have hzero : rsvpPairCount db.rsvps userId data.event = 0 := by
            have h2f : db.rsvps.any
                (fun r => r.user = userId ∧ r.event = data.event) = false := by
              simpa using h2
            unfold rsvpPairCount
            rw [List.length_eq_zero, List.filter_eq_nil_iff]
            intro r hr
            exact List.any_eq_false.mp h2f r hr
          refine ⟨hzero, ?_⟩
          unfold rsvpPairCount at hzero ⊢
          rw [List.filter_append, List.length_append, hzero]
          simp

/-- C5 witness: the amended theorem at the concrete duplicate store,
discharging the existence-check hypotheses by computation. -/
theorem C5_witness :
    RSVP_perform_create 5 7 rsvpData dbDup
      = .error (.validation "You have already RSVPd for this event.") := by
  have h := (C5_rsvp_uniqueness 5 7 rsvpData dbDup dbDup).1 event10 rfl
    (by decide) (by decide)
  exact h

/-! Event statistics (events/views.py lines 301-321). -/

/-- Python falsy-or: the expression (x or 0) applied to an aggregate result
that is None when the aggregated set is empty. -/
def pyOrZero (o : Option ℚ) : ℚ :=
  match o with
  | none => 0
  | some v => if v = 0 then 0 else v

/-- Join condition of filter(ticket__event=event): the FK-referenced ticket
row of the transaction belongs to the event. -/
def ticket_event_matches (db : DB) (ticketId eventId : Nat) : Bool :=
  match db.tickets.find? (fun t => t.id = ticketId) with
  | some t => t.event = eventId
  | none => false

/-- The stats dictionary of EventStatisticsView.get (views.py lines
309-320). -/
structure EventStats where
  total_tickets_sold : Nat
  revenue : ℚ
  waitlist_count : Nat
  average_rating : ℚ
  deriving Repr, DecidableEq

/-- Embedding of EventStatisticsView.get (views.py lines 301-321): fetch
the event, gate on creator-or-admin, then aggregate — count of completed
transactions of the event, Sum of their amounts with (or 0), Waitlist count,
and Avg of the review ratings with (or 0); Sum and Avg return None on an
empty set. -/
def EventStatisticsView_get (db : DB) (actor : User) (eid : Nat) :
    Except Err EventStats :=
  match db.events.find? (fun e => e.id = eid) with
  | none => .error .notFound
  | some event =>
    if event.creator ≠ actor.id ∧ actor.role ≠ "admin" then
      .error (.permissionDenied "You can only view statistics for your own events.")
    else
      let completed := db.transactions.filter
        (fun t => ticket_event_matches db t.ticket eid && decide (t.status = "completed"))
      let sumAmount : Option ℚ :=
        if completed.isEmpty then none
        else some (completed.foldl (fun a t => a + t.amount) 0)
      let evReviews := db.reviews.filter (fun r => r.event = eid)
      let avgRating : Option ℚ :=
        if evReviews.isEmpty then none
        else some ((evReviews.foldl (fun a r => a + (r.rating : ℚ)) 0)
                    / (evReviews.length : ℚ))
      .ok { total_tickets_sold := completed.length,
            revenue := pyOrZero sumAmount,
            waitlist_count := (db.waitlists.filter (fun w => w.event = eid)).length,
            average_rating := pyOrZero avgRating }

/-- A transaction counts toward the statistics of an event when it is
completed and some ticket row of the store is its ticket and belongs to the
event (the wording of the spec). -/
def is_completed_for (db : DB) (eid : Nat) (t : Transaction) : Prop :=
  t.status = "completed"
    ∧ ∃ tk, tk ∈ db.tickets ∧ tk.id = t.ticket ∧ tk.event = eid

instance (db : DB) (eid : Nat) (t : Transaction) :
    Decidable (is_completed_for db eid t) := by
  unfold is_completed_for
  exact instDecidableAnd

/-- Under unique ticket ids, the find?-based join test agrees with the
existential wording of the spec. -/
theorem ticket_event_matches_iff (db : DB) (tid eid : Nat)
    (hids : (db.tickets.map Ticket.id).Nodup) :
    ticket_event_matches db tid eid = true
      ↔ ∃ tk, tk ∈ db.tickets ∧ tk.id = tid ∧ tk.event = eid := by
  unfold ticket_event_matches
  cases hfind : db.tickets.find? (fun t => t.id = tid) with
  | none =>
    simp only [Bool.false_eq_true, false_iff]
    rintro ⟨tk, htk, hid, _⟩
    have := List.find?_eq_none.mp hfind tk htk
    simp [hid] at this
  | some tk0 =>
    have h0mem : tk0 ∈ db.tickets := List.mem_of_find?_eq_some hfind
    have h0id : tk0.id = tid := by
      have := List.find?_some hfind
      simpa using this
    constructor
    · intro h
      exact ⟨tk0, h0mem, h0id, by simpa using h⟩
    · rintro ⟨tk, htk, hid, hev⟩
      have : tk = tk0 :=
        List.inj_on_of_nodup_map hids htk h0mem (by rw [hid, h0id])
      subst this
      simpa using hev

/-- Sum of the amounts of a transaction list, stated through List.sum. -/
theorem foldl_amount_eq_sum (l : List Transaction) :
    l.foldl (fun a t => a + t.amount) 0 = (l.map Transaction.amount).sum := by
  rw [← List.foldl_map (f := Transaction.amount) (g := fun a v => a + v)]
  rw [List.sum_eq_foldl]

/-- Sum of the ratings of a review list as rationals, through List.sum. -/
theorem foldl_rating_eq_sum (l : List Review) :
    l.foldl (fun a r => a + (r.rating : ℚ))  0
      = (l.map (fun r => (r.rating : ℚ))).sum := by
  rw [← List.foldl_map (f := fun r : Review => (r.rating : ℚ)) (g := fun a v => a + v)]
  rw [List.sum_eq_foldl]

/-- Python (x or 0) on an aggregate defaulting is the identity once the
empty set maps to 0. -/
theorem pyOrZero_some (v : ℚ) : pyOrZero (some v) = v := by
  unfold pyOrZero
  dsimp only
  by_cases h : v = 0
  · rw [if_pos h, h]
  · rw [if_neg h]

/-- The Sum aggregate with its None default and the (or 0) collapse equals
the plain list sum of the amounts. -/
theorem agg_sum_amount (l : List Transaction) :
    pyOrZero (if l.isEmpty then none
              else some (l.foldl (fun a t => a + t.amount) 0))
      = (l.map Transaction.amount).sum := by
  cases l with
  | nil => simp [pyOrZero]
  | cons a as =>
    rw [if_neg (show ¬((a :: as).isEmpty = true) by simp)]
    rw [pyOrZero_some, foldl_amount_eq_sum]

/-- The Avg aggregate with its None default and the (or 0) collapse equals
sum-over-length on a non-empty review list. -/
theorem agg_avg_rating (l : List Review) (h : l ≠ []) :
    pyOrZero (if l.isEmpty then none
              else some ((l.foldl (fun a r => a + (r.rating : ℚ)) 0)
                          / (l.length : ℚ)))
      = (l.map (fun r => (r.rating : ℚ))).sum / (l.length : ℚ) := by
  cases l with
  | nil => exact absurd rfl h
  | cons a as =>
    rw [if_neg (show ¬((a :: as).isEmpty = true) by simp)]
    rw [pyOrZero_some, foldl_rating_eq_sum]

/-- C7: for every store, permitted actor and event id, the returned
statistics hold the count of the completed transactions of that event, the
sum of their amounts (0 when there are none), the waitlist size of the
event, and the mean review rating, which is 0 — not an error — when the
event has no reviews, all computed over the full tables. -/
theorem C7_statistics (db : DB) (actor : User) (eid : Nat) (s : EventStats)
    (hids : (db.tickets.map Ticket.id).Nodup)
    (hok : EventStatisticsView_get db actor eid = .ok s) :
    s.total_tickets_sold
        = db.transactions.countP (fun t => decide (is_completed_for db eid t))
      ∧ s.revenue
        = ((db.transactions.filter (fun t => decide (is_completed_for db eid t))).map
            Transaction.amount).sum
      ∧ ((∀ t ∈ db.transactions, ¬ is_completed_for db eid t) → s.revenue = 0)
      ∧ s.waitlist_count = db.waitlists.countP (fun w => decide (w.event = eid))
      ∧ ((∀ r ∈ db.reviews, r.event ≠ eid) → s.average_rating = 0)
      ∧ (∀ hne : db.reviews.filter (fun r => r.event = eid) ≠ [],
          s.average_rating
            = ((db.reviews.filter (fun r => r.event = eid)).map
                (fun r => (r.rating : ℚ))).sum
              / ((db.reviews.filter (fun r => r.event = eid)).length : ℚ)) := by
  have hfiltereq : db.transactions.filter
      (fun t => ticket_event_matches db t.ticket eid && decide (t.status = "completed"))
      = db.transactions.filter (fun t => decide (is_completed_for db eid t)) := by
    apply List.filter_congr
    intro t _
    cases hm : ticket_event_matches db t.ticket eid with
    | false =>
      rw [Bool.false_and, eq_comm, decide_eq_false_iff_not]
      intro hc
      rcases hc with ⟨hst, htk⟩
      rw [(ticket_event_matches_iff db t.ticket eid hids).mpr htk] at hm
      cases hm
    | true =>
      rw [Bool.true_and]
      cases hst : decide (t.status = "completed") with
      | false =>
        rw [eq_comm, decide_eq_false_iff_not]
        rw [decide_eq_false_iff_not] at hst
        intro hc
        exact absurd hc.1 hst
      | true =>
        rw [eq_comm, decide_eq_true_eq]
        rw [decide_eq_true_eq] at hst
        exact ⟨hst, (ticket_event_matches_iff db t.ticket eid hids).mp hm⟩
  unfold EventStatisticsView_get at hok
  cases hfind : db.events.find? (fun e => e.id = eid) with
  | none => rw [hfind] at hok; cases hok
  | some event =>
    rw [hfind] at hok
    dsimp only at hok
    by_cases hperm : event.creator ≠ actor.id ∧ actor.role ≠ "admin"
    · rw [if_pos hperm] at hok; cases hok
    · rw [if_neg hperm] at hok
      cases hok
      refine ⟨?_, ?_, ?_, ?_, ?_, ?_⟩
      · show (db.transactions.filter _).length = _
        rw [List.countP_eq_length_filter, hfiltereq]
      · show pyOrZero _ = _
        rw [hfiltereq, agg_sum_amount]
      · intro hnone
        have hemp : db.transactions.filter
            (fun t => decide (is_completed_for db eid t)) = [] := by
          rw [List.filter_eq_nil_iff]
          intro t ht
          simpa using hnone t ht
        show pyOrZero _ = 0
        rw [hfiltereq, agg_sum_amount, hemp]
        rfl
      · show (db.waitlists.filter _).length = _
        rw [List.countP_eq_length_filter]
      · intro hnone
        have hemp : db.reviews.filter (fun r => r.event = eid) = [] := by
          rw [List.filter_eq_nil_iff]
          intro r hr
          simpa using hnone r hr
        show pyOrZero _ = 0
        rw [hemp]
        simp [pyOrZero]
      · intro hne
        show pyOrZero _ = _
        rw [agg_avg_rating _ hne]

/-- Admin actor used by the C7 witness. -/
def actorAdminW : User := { adminA with id := 99 }

/-- Empty-history store holding only event 10 for the C7 witness. -/
def dbStatsW : DB :=
  { users := [actorAdminW], locations := [], events := [event10], tickets := [],
    rsvps := [], transactions := [], waitlists := [], reviews := [],
    notifications := [] }

/-- C7 witness: the statistics theorem at the concrete empty-history store —
the aggregate over zero completed transactions is counted, and the mean
rating over zero reviews is 0 rather than an error. -/
theorem C7_witness :
    ({ total_tickets_sold := 0, revenue := 0, waitlist_count := 0,
       average_rating := 0 } : EventStats).total_tickets_sold
        = dbStatsW.transactions.countP
            (fun t => decide (is_completed_for dbStatsW 10 t))
      ∧ ({ total_tickets_sold := 0, revenue := 0, waitlist_count := 0,
           average_rating := 0 } : EventStats).average_rating = 0 := by
  have h := C7_statistics dbStatsW actorAdminW 10
    { total_tickets_sold := 0, revenue := 0, waitlist_count := 0,
      average_rating := 0 } (by decide) rfl
  exact ⟨h.1, h.2.2.2.2.1 (by decide)⟩

/-! Location resolution (events/serializers.py lines 31-47 for registration
and lines 88-103 for event creation; Location model lines 64-74, name
unique). -/

/-- Validated nested location payload of LocationSerializer: name, country
and city are required; latitude, longitude, address and postal_code are
optional and some value only when the request body supplies the key. -/
structure LocationData where
  name : String
  latitude : Option ℚ
  longitude : Option ℚ
  address : Option String
  country : String
  city : String
  postal_code : Option String
  deriving Repr, DecidableEq

/-- Django Location.objects.get_or_create(name=...) as the registration
path calls it: look the row up by name alone; when absent, create a row
carrying only the name, every other column at its model default. -/
def Location_get_or_create_by_name (newId : Nat) (name : String)
    (locs : List Location) : Location × Bool × List Location :=
  match locs.find? (fun l => l.name = name) with
  | some l => (l, false, locs)
  | none =>
    let l : Location :=
      { id := newId, name := name, latitude := none, longitude := none,
        address := none, country := "", city := "", postal_code := "" }
    (l, true, locs ++ [l])

/-- Embedding of the location step of UserRegistrationSerializer.create
(serializers.py lines 31-47): get_or_create by name; when the row already
existed, overwrite latitude, longitude and address with the supplied values
(keeping the old value when the key is absent) and save; country, city and
postal_code are not touched. -/
def UserRegistration_location (newId : Nat) (ld : LocationData)
    (locs : List Location) : Location × List Location :=
  match Location_get_or_create_by_name newId ld.name locs with
  | (loc, created, locs1) =>
    if created then (loc, locs1)
    else
      let loc2 := { loc with
        latitude := match ld.latitude with
                    | some v => some v
                    | none => loc.latitude,
        longitude := match ld.longitude with
                     | some v => some v
                     | none => loc.longitude,
        address := match ld.address with
                   | some v => some v
                   | none => loc.address }
      (loc2, locs1.map (fun l => if l.id = loc.id then loc2 else l))

/-- Kwargs match of get_or_create(**location_data) in EventSerializer.create
(serializers.py line 94): every supplied field must equal the column. -/
def location_data_matches (ld : LocationData) (l : Location) : Bool :=
  decide (l.name = ld.name)
    && (match ld.latitude with
        | some v => decide (l.latitude = some v)
        | none => true)
    && (match ld.longitude with
        | some v => decide (l.longitude = some v)
        | none => true)
    && (match ld.address with
        | some v => decide (l.address = some v)
        | none => true)
    && decide (l.country = ld.country)
    && decide (l.city = ld.city)
    && (match ld.postal_code with
        | some v => decide (l.postal_code = v)
        | none => true)

/-- The row Location.objects.get_or_create(**location_data) inserts when no
row matches all supplied fields. -/
def locationFromData (newId : Nat) (ld : LocationData) : Location :=
  { id := newId, name := ld.name, latitude := ld.latitude,
    longitude := ld.longitude, address := ld.address, country := ld.country,
    city := ld.city, postal_code := ld.postal_code.getD "" }

/-- Embedding of the location step of EventSerializer.create
(serializers.py lines 93-95): get_or_create(**location_data) matches on ALL
supplied fields; when none matches it attempts an insert, which violates
the unique constraint on name (IntegrityError) whenever a row with the same
name but different details already exists. -/
def EventSerializer_location (newId : Nat) (ld : LocationData)
    (locs : List Location) : Except Err (Location × List Location) :=
  match locs.find? (fun l => location_data_matches ld l) with
  | some l => .ok (l, locs)
  | none =>
    if locs.any (fun l => l.name = ld.name) then .error .integrity
    else .ok (locationFromData newId ld, locs ++ [locationFromData newId ld])

/-- Existing location named X in Lyon, France. -/
def locLyon : Location :=
  { id := 1, name := "X", latitude := none, longitude := none, address := none,
    country := "FR", city := "Lyon", postal_code := "" }

/-- Payload reusing the name X but with city Paris. -/
def ldParis : LocationData :=
  { name := "X", latitude := none, longitude := none, address := none,
    country := "FR", city := "Paris", postal_code := none }

/-- Payload reusing the name X but with country DE. -/
def ldGermany : LocationData :=
  { name := "X", latitude := none, longitude := none, address := none,
    country := "DE", city := "Lyon", postal_code := none }

/-- C9 counterexample.  Event creation with an existing name and a changed
city does not reuse-and-refresh the row: the all-fields get_or_create finds
no match and the insert hits the unique name constraint (IntegrityError).
Registration with an existing name and a changed country keeps the row
bit-for-bit identical — the supplied country DE is not merged into the
stored FR. -/
theorem C9_counterexample :
    EventSerializer_location 2 ldParis [locLyon] = .error .integrity
      ∧ UserRegistration_location 2 ldGermany [locLyon] = (locLyon, [locLyon])
      ∧ ldGermany.country = "DE"
      ∧ locLyon.country = "FR" := by
  refine ⟨rfl, rfl, rfl, rfl⟩

/-- C9 amended: registration resolves locations by name only — an existing
row keeps its identity and only latitude, longitude and address are
overwritten when supplied (country, city and postal code are never
refreshed), and a new name creates a row carrying only the name; event
creation instead matches on all supplied fields — a full match is reused
unchanged, a fresh name inserts the supplied values, and an existing name
with any differing detail raises IntegrityError rather than refreshing. -/
theorem C9_location_resolution (newId : Nat) (ld : LocationData)
    (locs : List Location) :
    (∀ loc, locs.find? (fun l => l.name = ld.name) = some loc →
      (UserRegistration_location newId ld locs).1
          = { loc with
              latitude := match ld.latitude with
                          | some v => some v
                          | none => loc.latitude,
              longitude := match ld.longitude with
                           | some v => some v
                           | none => loc.longitude,
              address := match ld.address with
                         | some v => some v
                         | none => loc.address }
        ∧ (UserRegistration_location newId ld locs).1.country = loc.country
        ∧ (UserRegistration_location newId ld locs).1.city = loc.city
        ∧ (UserRegistration_location newId ld locs).1.postal_code = loc.postal_code
        ∧ (UserRegistration_location newId ld locs).2.length = locs.length)
    ∧ (locs.find? (fun l => l.name = ld.name) = none →
      (UserRegistration_location newId ld locs).2
          = locs ++ [{ id := newId, name := ld.name, latitude := none,
                       longitude := none, address := none, country := "",
                       city := "", postal_code := "" }])
    ∧ (∀ loc, locs.find? (fun l => location_data_matches ld l) = some loc →
      EventSerializer_location newId ld locs = .ok (loc, locs))
    ∧ (locs.find? (fun l => location_data_matches ld l) = none →
      locs.any (fun l => l.name = ld.name) = true →
      EventSerializer_location newId ld locs = .error .integrity)
    ∧ (locs.find? (fun l => location_data_matches ld l) = none →
      locs.any (fun l => l.name = ld.name) = false →
      EventSerializer_location newId ld locs
        = .ok (locationFromData newId ld, locs ++ [locationFromData newId ld])) := by
  refine ⟨?_, ?_, ?_, ?_, ?_⟩
  · intro loc hfind
    unfold UserRegistration_location Location_get_or_create_by_name
    rw [hfind]
    dsimp only
    rw [if_neg (show ¬(false = true) by simp)]
    exact ⟨rfl, rfl, rfl, rfl, by rw [List.length_map]⟩
  · intro hfind
    unfold UserRegistration_location Location_get_or_create_by_name
    rw [hfind]
    dsimp only
    rw [if_pos rfl]
  · intro loc hfind
    unfold EventSerializer_location
    rw [hfind]
  · intro hfind hname
    unfold EventSerializer_location
    rw [hfind]
    dsimp only
    rw [if_pos hname]
  · intro hfind hname
    unfold EventSerializer_location
    rw [hfind]
    dsimp only
    rw [if_neg (by rw [hname]; intro hc; cases hc)]

/-- C9 witness: the amended theorem at the concrete Lyon store — the
registration branch keeps country and city, and the event branch with a
fresh name inserts the supplied row. -/
theorem C9_witness :
    (UserRegistration_location 2 ldGermany [locLyon]).1.country = locLyon.country
      ∧ EventSerializer_location 5 ldParis []
        = .ok (locationFromData 5 ldParis, [locationFromData 5 ldParis]) := by
  have h1 := ((C9_location_resolution 2 ldGermany [locLyon]).1 locLyon rfl).2.1
  have h2 := (C9_location_resolution 5 ldParis []).2.2.2.2 rfl rfl
  exact ⟨h1, by simpa using h2⟩

end EC
